import Mathlib

/-!
Shallow embedding of the Whistle time-tracking core (clock-in, clock-out,
status read with lazy auto-timeout, year total, heatmap) and proofs of the
specification claims about it.

Instants are modelled as integer milliseconds since the Unix epoch, exactly
as JavaScript `Date` arithmetic manipulates them.  Every hours value the
source rounds to 2 decimal places (`Math.round(x * 100) / 100`) is an exact
multiple of 0.01, so it is carried losslessly as an integer count of
hundredths of an hour (fields suffixed `_x100`); `Math.round(num/den)` on an
exact ratio with positive denominator is floor-division `(2*num + den) / (2*den)`.
The per-user slice of the `time_entries` table is a list of entries;
SQL filters, sums and GROUP BY are embedded as list operations.
The timezone lookup performed by `Intl.DateTimeFormat` is abstracted as a
resolver function from an IANA name and an instant to a local weekday and
hour-of-day, returning `none` when the name is not recognized (the
JavaScript formatter throws, which the source catches).
-/

deriving instance DecidableEq for Except

namespace Whistle

/-- Maximum shift length in hours (`MAX_SHIFT_HOURS` in the source). -/
def MAX_SHIFT_HOURS : ℤ := 15

/-- The maximum shift expressed in milliseconds. -/
def MAX_SHIFT_MS : ℤ := MAX_SHIFT_HOURS * 60 * 60 * 1000

/-- One row of the `time_entries` table restricted to a single user:
`start_time` and (optional) `end_time` as epoch milliseconds, plus the
IANA timezone name recorded at clock-in.  `end_time = none` means the
session is open. -/
structure TimeEntry where
  id : ℕ
  start_time : ℤ
  end_time : Option ℤ
  start_timezone : String
deriving DecidableEq, Repr

/-- The per-user store: the user's rows of `time_entries` in table order. -/
abbrev Store := List TimeEntry

/-- A row with no `end_time` is an open session (`end_time IS NULL`). -/
def TimeEntry.isOpen (e : TimeEntry) : Bool := e.end_time.isNone

/-- Local weekday, as produced by the `weekday: 'short'` formatter. -/
inductive Weekday
  | Sun | Mon | Tue | Wed | Thu | Fri | Sat
deriving DecidableEq, Repr

/-- Abstraction of `Intl.DateTimeFormat` with a `timeZone` option: maps an
IANA zone name and an instant to the local weekday and hour-of-day (0..23);
`none` models the `RangeError` thrown on an unrecognized zone name. -/
abbrev TzResolver := String → ℤ → Option (Weekday × ℕ)

/-- Error message for the Sunday blackout. -/
def sundayMsg : String := "Clock in/out is not available on Sundays."

/-- Error message for the Saturday-evening blackout. -/
def saturdayMsg : String := "Clock in/out is not available after 6pm on Saturdays."

/-- `checkWeekendRestriction` from `clock-in.js` / `clock-out.js`: returns an
error message when clock in/out is restricted, `none` otherwise.  Restricted
on Sundays all day and on Saturdays from local hour 18.  When the timezone
lookup fails (unrecognized name) the `catch` branch returns `none`:
the rule fails open. -/
def checkWeekendRestriction (resolve : TzResolver) (timezone : String) (now : ℤ) :
    Option String :=
  match resolve timezone now with
  | none => none
  | some (weekday, hour) =>
      if weekday = Weekday.Sun then some sundayMsg
      else if weekday = Weekday.Sat ∧ 18 ≤ hour then some saturdayMsg
      else none

/-- Semantic error outcomes of the handlers. -/
inductive ApiError
  | InvalidInput
  | AlreadyClockedIn
  | NotClockedIn
  | ClockInBlocked (msg : String)
  | ClockOutBlocked (msg : String)
deriving DecidableEq, Repr

/-- JavaScript `Math.round (num / den)` for an exact ratio with `den > 0`:
half-up toward positive infinity, `⌊num/den + 1/2⌋ = ⌊(2*num + den) / (2*den)⌋`. -/
def jsRoundDiv (num den : ℤ) : ℤ := (2 * num + den).fdiv (2 * den)

/-- A duration of `ms` milliseconds converted to hours and rounded to 2
decimal places, carried as hundredths of an hour:
`Math.round((ms / 3600000) * 100)` i.e. `Math.round(ms / 36000)`. -/
def roundHoursX100 (ms : ℤ) : ℤ := jsRoundDiv ms 36000

/-- `SELECT ... WHERE end_time IS NULL` followed by `rows[0]`: the first open
entry of the user's rows, if any. -/
def findOpenEntry (s : Store) : Option TimeEntry := s.find? TimeEntry.isOpen

/-- The row inserted by clock-in: open entry starting now with the supplied
timezone. -/
def newEntry (newId : ℕ) (now : ℤ) (timezone : String) : TimeEntry :=
  { id := newId, start_time := now, end_time := none, start_timezone := timezone }

/-- `POST /api/time/clock-in`: reject an empty timezone, then the weekend
restriction, then an existing open entry; otherwise insert one new open row.
Returns the resulting store together with the outcome. -/
def clockIn (resolve : TzResolver) (timezone : String) (now : ℤ) (newId : ℕ)
    (s : Store) : Store × Except ApiError TimeEntry :=
  if timezone = "" then (s, Except.error ApiError.InvalidInput)
  else
    match checkWeekendRestriction resolve timezone now with
    | some msg => (s, Except.error (ApiError.ClockInBlocked msg))
    | none =>
        if (findOpenEntry s).isSome then (s, Except.error ApiError.AlreadyClockedIn)
        else (s ++ [newEntry newId now timezone], Except.ok (newEntry newId now timezone))

/-- End time computed at clock-out: capped at `start + 15h` when
`hoursWorked > MAX_SHIFT_HOURS` (over the rationals,
`(now - start) / 3600000 > 15` is exactly `now - start > MAX_SHIFT_MS`). -/
def cappedEnd (startMs now : ℤ) : ℤ :=
  if MAX_SHIFT_MS < now - startMs then startMs + MAX_SHIFT_MS else now

/-- `UPDATE time_entries SET end_time = ... WHERE id = ...` on the user's
rows. -/
def closeEntry (s : Store) (i : ℕ) (endMs : ℤ) : Store :=
  s.map fun e => if e.id = i then { e with end_time := some endMs } else e

/-- The entry object returned by a successful clock-out; `duration_hours_x100`
is the response's `duration_hours` in hundredths of an hour. -/
structure ClosedEntryView where
  id : ℕ
  start_time : ℤ
  end_time : ℤ
  duration_hours_x100 : ℤ
deriving DecidableEq, Repr

/-- Response payload of a successful clock-out on open entry `e`:
capped end time and the duration in hours rounded to 2 decimals. -/
def closeResult (e : TimeEntry) (now : ℤ) : ClosedEntryView :=
  { id := e.id
    start_time := e.start_time
    end_time := cappedEnd e.start_time now
    duration_hours_x100 := roundHoursX100 (cappedEnd e.start_time now - e.start_time) }

/-- `POST /api/time/clock-out`: find the open entry; unless the request is
automatic and unless the stored `start_timezone` is falsy (empty), evaluate
the weekend restriction against the stored timezone; then close the entry at
the capped end time.  The request body carries no timezone: only the `auto`
flag, so the restriction can only ever consult the entry's stored
`start_timezone`. -/
def clockOut (resolve : TzResolver) (isAuto : Bool) (now : ℤ) (s : Store) :
    Store × Except ApiError ClosedEntryView :=
  match findOpenEntry s with
  | none => (s, Except.error ApiError.NotClockedIn)
  | some entry =>
      if isAuto = false ∧ entry.start_timezone ≠ "" then
        match checkWeekendRestriction resolve entry.start_timezone now with
        | some msg => (s, Except.error (ApiError.ClockOutBlocked msg))
        | none =>
            (closeEntry s entry.id (cappedEnd entry.start_time now),
             Except.ok (closeResult entry now))
      else
        (closeEntry s entry.id (cappedEnd entry.start_time now),
         Except.ok (closeResult entry now))

/-- SQL filter common to the year-total and heatmap queries:
`end_time IS NOT NULL AND start_time >= yearStart AND start_time < yearEnd`. -/
def inYearClosed (yearStart yearEnd : ℤ) (e : TimeEntry) : Bool :=
  e.end_time.isSome && decide (yearStart ≤ e.start_time) && decide (e.start_time < yearEnd)

/-- `end_time - start_time` in milliseconds for a closed row (0 for an open
row, which the queries never select).  `EXTRACT(EPOCH FROM ...) / 3600`
divides this by 3600000; summing those exact ratios and then rounding is the
same as summing the millisecond durations and rounding once, which is how
the aggregates below are expressed. -/
def entryDurMs (e : TimeEntry) : ℤ :=
  match e.end_time with
  | some endMs => endMs - e.start_time
  | none => 0

/-- Total duration in milliseconds of
`SUM(EXTRACT(EPOCH FROM (end_time - start_time)) / 3600)`'s operand set:
the user's closed rows whose start lies in `[yearStart, yearEnd)`. -/
def sumMsInRange (yearStart yearEnd : ℤ) (s : Store) : ℤ :=
  ((s.filter (inYearClosed yearStart yearEnd)).map entryDurMs).sum

/-- The `current_session` object of the status response. -/
structure CurrentSession where
  id : ℕ
  start_time : ℤ
  timezone : String
  elapsed_seconds : ℤ
deriving DecidableEq, Repr

/-- The status response body; `year_total_hours_x100` is the response's
`year_total_hours` in hundredths of an hour. -/
structure StatusOutput where
  is_working : Bool
  current_session : Option CurrentSession
  year_total_hours_x100 : ℤ
deriving DecidableEq, Repr

/-- `GET /api/time/status`: look up the open entry; when elapsed time has
reached `MAX_SHIFT_HOURS` (`elapsedHours >= 15`, i.e. elapsed milliseconds
`≥ MAX_SHIFT_MS`), auto-close it at `start + 15h`; then compute the year
total over the resulting store (the SUM query runs after the UPDATE), with
`COALESCE(..., 0)` modelled by the empty sum being 0, rounded to 2 decimals.
The calendar-year bounds the handler derives from the clock are passed as
`yearStart`/`yearEnd` (epoch milliseconds of Jan 1 UTC). -/
def status (now yearStart yearEnd : ℤ) (s : Store) : Store × StatusOutput :=
  let step : Store × Bool × Option CurrentSession :=
    match findOpenEntry s with
    | none => (s, false, none)
    | some entry =>
        if MAX_SHIFT_MS ≤ now - entry.start_time then
          (closeEntry s entry.id (entry.start_time + MAX_SHIFT_MS), false, none)
        else
          (s, true,
           some { id := entry.id
                  start_time := entry.start_time
                  timezone := entry.start_timezone
                  elapsed_seconds := (now - entry.start_time).fdiv 1000 })
  (step.1,
   { is_working := step.2.1
     current_session := step.2.2
     year_total_hours_x100 := roundHoursX100 (sumMsInRange yearStart yearEnd step.1) })

/-- `DATE(start_time)` under a UTC session timezone: the UTC day index of an
instant (floor division by the milliseconds in a day).  The `YYYY-MM-DD`
string of the response is the presentation of this index. -/
def utcDay (ms : ℤ) : ℤ := ms.fdiv 86400000

/-- `GET /api/time/heatmap` as a lookup: the value the `days` object maps a
UTC day `d` to — `none` when no closed in-year row starts on `d` (the GROUP
BY produces no group, so the key is absent), otherwise the group's summed
hours rounded to 2 decimals, in hundredths of an hour. -/
def heatmapDays (yearStart yearEnd : ℤ) (s : Store) (d : ℤ) : Option ℤ :=
  let group := s.filter fun e =>
    inYearClosed yearStart yearEnd e && decide (utcDay e.start_time = d)
  if group.isEmpty then none
  else some (roundHoursX100 ((group.map entryDurMs).sum))

/-! ## Invariant predicates and concrete resolvers used by the claims -/

/-- A single entry satisfies the closed-duration invariant: when closed,
`0 ≤ end − start ≤ 15h`. -/
def entryClosedDurOK (e : TimeEntry) : Bool :=
  match e.end_time with
  | none => true
  | some endMs =>
      decide (e.start_time ≤ endMs) && decide (endMs ≤ e.start_time + MAX_SHIFT_MS)

/-- Every closed entry of the store satisfies `0 ≤ end − start ≤ 15h`. -/
def ClosedDurOK (s : Store) : Prop := ∀ e ∈ s, entryClosedDurOK e = true

/-- All stored start times lie in the past of `now` (starts were recorded by
`NOW()` at earlier requests under a monotone wall clock). -/
def StartsLE (now : ℤ) (s : Store) : Prop := ∀ e ∈ s, e.start_time ≤ now

/-- Row ids are pairwise distinct (`id SERIAL PRIMARY KEY` in the schema). -/
def IdsNodup (s : Store) : Prop := (s.map TimeEntry.id).Nodup

instance (s : Store) : Decidable (ClosedDurOK s) :=
  List.decidableBAll (fun e => entryClosedDurOK e = true) s

instance (now : ℤ) (s : Store) : Decidable (StartsLE now s) :=
  List.decidableBAll (fun e : TimeEntry => e.start_time ≤ now) s

instance (s : Store) : Decidable (IdsNodup s) :=
  List.nodupDecidable (s.map TimeEntry.id)

/-- A toy resolver with one Sunday zone, one Saturday-evening zone, one
Friday zone, and everything else unrecognized. -/
def toyResolver : TzResolver := fun tz _ =>
  if tz = "America/Chicago" then some (Weekday.Sun, 10)
  else if tz = "Europe/Berlin" then some (Weekday.Sat, 19)
  else if tz = "Asia/Tokyo" then some (Weekday.Fri, 23)
  else none

/-- A resolver for which every zone name — even the empty string — resolves
to Sunday morning, so every evaluated blackout check is restricted. -/
def alwaysSundayResolver : TzResolver := fun _ _ => some (Weekday.Sun, 10)

/-! ## Claims -/

/-- C3: for every instant and every timezone name the resolver recognizes,
`checkWeekendRestriction` reports restricted exactly when the local weekday
is Sunday (any hour) or the local weekday is Saturday with local hour ≥ 18;
for every unrecognized timezone name it reports not restricted (fails open). -/
theorem checkWeekendRestriction_spec (resolve : TzResolver) (tz : String) (t : ℤ) :
    (resolve tz t = none → checkWeekendRestriction resolve tz t = none) ∧
    (∀ wd hr, resolve tz t = some (wd, hr) →
      ((checkWeekendRestriction resolve tz t).isSome ↔
        (wd = Weekday.Sun ∨ (wd = Weekday.Sat ∧ 18 ≤ hr)))) := by
  constructor
  · intro h
    simp [checkWeekendRestriction, h]
  · intro wd hr h
    simp only [checkWeekendRestriction, h]
    by_cases hsun : wd = Weekday.Sun
    · simp [hsun]
    · by_cases hsat : wd = Weekday.Sat ∧ 18 ≤ hr
      · simp [hsun, hsat]
      · simp [hsun, hsat]

/-- Witness for C3 at concrete inputs: an unrecognized zone fails open, a
Sunday-morning zone is restricted, and a Friday-night zone is not. -/
theorem checkWeekendRestriction_spec_witness :
    checkWeekendRestriction toyResolver "Not/AZone" 0 = none ∧
    (checkWeekendRestriction toyResolver "America/Chicago" 0).isSome = true ∧
    (checkWeekendRestriction toyResolver "Europe/Berlin" 0).isSome = true ∧
    (checkWeekendRestriction toyResolver "Asia/Tokyo" 0).isSome = false := by
  refine ⟨(checkWeekendRestriction_spec toyResolver "Not/AZone" 0).1 (by decide), ?_, ?_, ?_⟩
  · exact ((checkWeekendRestriction_spec toyResolver "America/Chicago" 0).2
      Weekday.Sun 10 (by decide)).mpr (Or.inl rfl)
  · exact ((checkWeekendRestriction_spec toyResolver "Europe/Berlin" 0).2
      Weekday.Sat 19 (by decide)).mpr (Or.inr ⟨rfl, by decide⟩)
  · have h := (checkWeekendRestriction_spec toyResolver "Asia/Tokyo" 0).2
      Weekday.Fri 23 (by decide)
    rw [Bool.eq_false_iff]
    intro hc
    exact (by decide :
      ¬ (Weekday.Fri = Weekday.Sun ∨ (Weekday.Fri = Weekday.Sat ∧ 18 ≤ 23))) (h.mp hc)

/-- C7: clock-in is atomic on failure — when the weekend rule is restricted
it fails with `ClockInBlocked` and the store is unchanged; when an open entry
already exists it fails with `AlreadyClockedIn` and the store is unchanged;
a new open row is inserted only when neither failure occurs.  (The handler
validates the timezone string before either check, hence `tz ≠ ""`.) -/
theorem clockIn_atomic (r : TzResolver) (tz : String) (now : ℤ) (newId : ℕ)
    (s : Store) (htz : tz ≠ "") :
    (∀ msg, checkWeekendRestriction r tz now = some msg →
      clockIn r tz now newId s = (s, Except.error (ApiError.ClockInBlocked msg))) ∧
    (checkWeekendRestriction r tz now = none → (findOpenEntry s).isSome →
      clockIn r tz now newId s = (s, Except.error ApiError.AlreadyClockedIn)) ∧
    (checkWeekendRestriction r tz now = none → findOpenEntry s = none →
      clockIn r tz now newId s =
        (s ++ [newEntry newId now tz], Except.ok (newEntry newId now tz))) := by
  refine ⟨?_, ?_, ?_⟩
  · intro msg hmsg
    simp [clockIn, htz, hmsg]
  · intro hchk hopen
    simp [clockIn, htz, hchk, hopen]
  · intro hchk hopen
    simp [clockIn, htz, hchk, hopen]

/-- Witness for C7 at concrete inputs: a Sunday-zone clock-in is blocked with
no new row; a clock-in over an existing open entry fails with no new row; a
clean clock-in inserts exactly the one new open row. -/
theorem clockIn_atomic_witness :
    clockIn toyResolver "America/Chicago" 0 7 [] =
      ([], Except.error (ApiError.ClockInBlocked sundayMsg)) ∧
    clockIn toyResolver "Asia/Tokyo" 5 7 [⟨1, 0, none, "UTC"⟩] =
      ([⟨1, 0, none, "UTC"⟩], Except.error ApiError.AlreadyClockedIn) ∧
    clockIn toyResolver "Asia/Tokyo" 5 7 [] =
      ([newEntry 7 5 "Asia/Tokyo"], Except.ok (newEntry 7 5 "Asia/Tokyo")) := by
  refine ⟨?_, ?_, ?_⟩
  · exact (clockIn_atomic toyResolver "America/Chicago" 0 7 [] (by decide)).1
      sundayMsg (by decide)
  · exact (clockIn_atomic toyResolver "Asia/Tokyo" 5 7 [⟨1, 0, none, "UTC"⟩]
      (by decide)).2.1 (by decide) (by decide)
  · exact (clockIn_atomic toyResolver "Asia/Tokyo" 5 7 [] (by decide)).2.2
      (by decide) rfl

/-- C9 (implicit): when the open entry's stored `start_timezone` is the empty
string (falsy in JavaScript), a manual clock-out skips the weekend blackout
check entirely — the guard `!isAuto && entry.start_timezone` is false — so
the entry is closed for every resolver, even one whose local time lies in
the blackout window. -/
theorem clockOut_empty_timezone_skips_blackout (r : TzResolver) (now : ℤ)
    (s : Store) (e : TimeEntry) (hfind : findOpenEntry s = some e)
    (htz : e.start_timezone = "") :
    clockOut r false now s =
      (closeEntry s e.id (cappedEnd e.start_time now), Except.ok (closeResult e now)) := by
  simp [clockOut, hfind, htz]

/-- Witness for C9: an open entry with empty stored timezone is closed by a
manual clock-out under a resolver that restricts every zone. -/
theorem clockOut_empty_timezone_skips_blackout_witness :
    clockOut alwaysSundayResolver false 3600000 [⟨1, 0, none, ""⟩] =
      ([⟨1, 0, some 3600000, ""⟩], Except.ok ⟨1, 0, 3600000, 100⟩) := by
  have h := clockOut_empty_timezone_skips_blackout alwaysSundayResolver 3600000
    [⟨1, 0, none, ""⟩] ⟨1, 0, none, ""⟩ (by decide) rfl
  exact h.trans (by decide)

/-- C2: a manual clock-out of an open entry that passes (or, when automatic,
skips) the blackout check closes the entry at `cappedEnd`: end time
`start + 15h` when `now − start > 15h` (`MAX_SHIFT_MS` milliseconds), `now`
otherwise; the returned `duration_hours` is `(end − start)` in hours rounded
to 2 decimals (carried ×100). -/
theorem clockOut_cap (r : TzResolver) (isAuto : Bool) (now : ℤ) (s : Store)
    (e : TimeEntry) (hfind : findOpenEntry s = some e)
    (hpass : isAuto = true ∨ checkWeekendRestriction r e.start_timezone now = none) :
    clockOut r isAuto now s =
      (closeEntry s e.id (cappedEnd e.start_time now), Except.ok (closeResult e now)) ∧
    (closeResult e now).end_time =
      (if MAX_SHIFT_MS < now - e.start_time then e.start_time + MAX_SHIFT_MS else now) ∧
    (closeResult e now).duration_hours_x100 =
      roundHoursX100 ((closeResult e now).end_time - e.start_time) := by
  refine ⟨?_, rfl, rfl⟩
  rcases hpass with h | h
  · simp [clockOut, hfind, h]
  · by_cases hauto : isAuto = false ∧ e.start_timezone ≠ ""
    · simp [clockOut, hfind, hauto, h]
    · simp [clockOut, hfind, hauto]

/-- Witness for C2: the spec's cap scenario.  Clock-in at
2024-06-01T08:00:00Z (epoch ms 1717228800000), manual clock-out requested at
2024-06-01T23:59:00Z (1717286340000, 15h59m later) yields
end_time 2024-06-01T23:00:00Z (1717282800000 = start + 15h) and
duration_hours 15.00 (1500 hundredths). -/
theorem clockOut_cap_witness :
    clockOut toyResolver false 1717286340000
        [⟨1, 1717228800000, none, "Asia/Tokyo"⟩] =
      ([⟨1, 1717228800000, some 1717282800000, "Asia/Tokyo"⟩],
       Except.ok ⟨1, 1717228800000, 1717282800000, 1500⟩) ∧
    (1717282800000 : ℤ) = 1717228800000 + MAX_SHIFT_MS := by
  have h := (clockOut_cap toyResolver false 1717286340000
    [⟨1, 1717228800000, none, "Asia/Tokyo"⟩] ⟨1, 1717228800000, none, "Asia/Tokyo"⟩
    (by decide) (Or.inr (by decide))).1
  exact ⟨h.trans (by decide), by decide⟩

/-- C6: the clock-out blackout check consults only the entry's stored
`start_timezone` — the request body carries no timezone (`clockOut` takes
none), so an automatic clock-out is resolver-independent (the check is
skipped), and a manual clock-out whose stored timezone is restricted fails
with `ClockOutBlocked` leaving the store unchanged.  The hypothesis
`r "" now = none` records that the empty string is never a recognized zone
(`Intl.DateTimeFormat` throws on it). -/
theorem clockOut_blackout_stored_timezone (r r2 : TzResolver) (now : ℤ) (s : Store) :
    clockOut r true now s = clockOut r2 true now s ∧
    (∀ e msg, findOpenEntry s = some e → r "" now = none →
      checkWeekendRestriction r e.start_timezone now = some msg →
      clockOut r false now s = (s, Except.error (ApiError.ClockOutBlocked msg))) := by
  constructor
  · cases hfind : findOpenEntry s with
    | none => simp [clockOut, hfind]
    | some e => simp [clockOut, hfind]
  · intro e msg hfind hres hchk
    have htz : e.start_timezone ≠ "" := by
      intro heq
      rw [heq] at hchk
      simp [checkWeekendRestriction, hres] at hchk
    simp [clockOut, hfind, htz, hchk]

/-- Witness for C6: with an open entry whose stored zone is Sunday under
`toyResolver`, an automatic clock-out gives the same result under a
completely different resolver, and a manual clock-out is blocked with the
store unchanged. -/
theorem clockOut_blackout_stored_timezone_witness :
    clockOut toyResolver true 100 [⟨1, 0, none, "America/Chicago"⟩] =
      clockOut alwaysSundayResolver true 100 [⟨1, 0, none, "America/Chicago"⟩] ∧
    clockOut toyResolver false 100 [⟨1, 0, none, "America/Chicago"⟩] =
      ([⟨1, 0, none, "America/Chicago"⟩],
       Except.error (ApiError.ClockOutBlocked sundayMsg)) := by
  have h := clockOut_blackout_stored_timezone toyResolver alwaysSundayResolver 100
    [⟨1, 0, none, "America/Chicago"⟩]
  exact ⟨h.1, h.2 ⟨1, 0, none, "America/Chicago"⟩ sundayMsg (by decide) (by decide)
    (by decide)⟩

/-- C5: an open entry (absent `end_timestamp`) contributes nothing to the
year-total sum and nothing to the heatmap mapping, wherever it sits in the
store and however long it has been open — both aggregates filter on
`end_time IS NOT NULL`. -/
theorem open_entry_excluded_from_aggregates (yearStart yearEnd d : ℤ)
    (e : TimeEntry) (hopen : e.end_time = none) (s1 s2 : Store) :
    sumMsInRange yearStart yearEnd (s1 ++ e :: s2) =
      sumMsInRange yearStart yearEnd (s1 ++ s2) ∧
    heatmapDays yearStart yearEnd (s1 ++ e :: s2) d =
      heatmapDays yearStart yearEnd (s1 ++ s2) d := by
  have hfilter : inYearClosed yearStart yearEnd e = false := by
    simp [inYearClosed, hopen]
  constructor
  · simp [sumMsInRange, List.filter_append, List.filter_cons, hfilter]
  · simp [heatmapDays, List.filter_append, List.filter_cons, hfilter]

/-- Witness for C5: an entry open for ten years, listed after a one-hour
closed entry, changes neither aggregate; the aggregates evaluate to the
closed entry's hour alone. -/
theorem open_entry_excluded_from_aggregates_witness :
    sumMsInRange 0 1000000000000
        ([⟨1, 0, some 3600000, "UTC"⟩] ++ ⟨2, 7200000, none, "UTC"⟩ :: []) =
      sumMsInRange 0 1000000000000 ([⟨1, 0, some 3600000, "UTC"⟩] ++ []) ∧
    heatmapDays 0 1000000000000
        ([⟨1, 0, some 3600000, "UTC"⟩] ++ ⟨2, 7200000, none, "UTC"⟩ :: []) 0 =
      heatmapDays 0 1000000000000 ([⟨1, 0, some 3600000, "UTC"⟩] ++ []) 0 ∧
    sumMsInRange 0 1000000000000
        [⟨1, 0, some 3600000, "UTC"⟩, ⟨2, 7200000, none, "UTC"⟩] = 3600000 ∧
    heatmapDays 0 1000000000000
        [⟨1, 0, some 3600000, "UTC"⟩, ⟨2, 7200000, none, "UTC"⟩] 0 = some 100 := by
  have h := open_entry_excluded_from_aggregates 0 1000000000000 0
    ⟨2, 7200000, none, "UTC"⟩ rfl [⟨1, 0, some 3600000, "UTC"⟩] []
  exact ⟨h.1, h.2, by decide, by decide⟩

/-- After closing by id, no open entry remains when the closed entry was the
only open one (shared helper for the auto-timeout and invariant claims). -/
theorem findOpenEntry_closeEntry_eq_none (s : Store) (e : TimeEntry) (m : ℤ)
    (honly : ∀ x ∈ s, x.end_time = none → x.id = e.id) :
    findOpenEntry (closeEntry s e.id m) = none := by
  apply List.find?_eq_none.mpr
  intro x hx
  obtain ⟨y, hy, rfl⟩ := List.mem_map.mp hx
  by_cases hid : y.id = e.id
  · simp [TimeEntry.isOpen, hid]
  · have hclosed : y.end_time ≠ none := fun hn => hid (honly y hy hn)
    simp only [hid, if_false]
    cases hyend : y.end_time with
    | none => exact absurd hyend hclosed
    | some m2 => simp [TimeEntry.isOpen, hyend]

/-- A status read over a store with no open entry leaves the store unchanged
and reports no session (shared helper). -/
theorem status_of_no_open (now ys ye : ℤ) (s : Store)
    (h : findOpenEntry s = none) :
    status now ys ye s =
      (s, { is_working := false, current_session := none,
            year_total_hours_x100 := roundHoursX100 (sumMsInRange ys ye s) }) := by
  simp [status, h]

/-- C4: a status read over an open entry whose elapsed time has reached 15
hours closes it at `start + 15h`; an immediately following status read finds
no open entry, performs no write (the store is returned unchanged), and
reports not working — the lazy auto-timeout fires exactly once.  The last
hypothesis is the at-most-one-open-entry invariant (stated via ids). -/
theorem status_autoclose_idempotent (now now2 ys ye ys2 ye2 : ℤ) (s : Store)
    (e : TimeEntry) (hfind : findOpenEntry s = some e)
    (helapsed : MAX_SHIFT_MS ≤ now - e.start_time)
    (honly : ∀ x ∈ s, x.end_time = none → x.id = e.id) :
    (status now ys ye s).1 = closeEntry s e.id (e.start_time + MAX_SHIFT_MS) ∧
    (status now2 ys2 ye2 (status now ys ye s).1).1 = (status now ys ye s).1 ∧
    (status now2 ys2 ye2 (status now ys ye s).1).2.is_working = false ∧
    (status now2 ys2 ye2 (status now ys ye s).1).2.current_session = none := by
  have h1 : (status now ys ye s).1 = closeEntry s e.id (e.start_time + MAX_SHIFT_MS) := by
    simp only [status, hfind]
    rw [if_pos helapsed]
  have hnone : findOpenEntry (status now ys ye s).1 = none := by
    rw [h1]
    exact findOpenEntry_closeEntry_eq_none s e (e.start_time + MAX_SHIFT_MS) honly
  refine ⟨h1, ?_, ?_, ?_⟩ <;> rw [status_of_no_open now2 ys2 ye2 _ hnone]

/-- Witness for C4 at a concrete store: one entry open for exactly 15 hours
is closed by the first read; the second read returns the store unchanged and
reports no session. -/
theorem status_autoclose_idempotent_witness :
    (status 54000000 0 1000000000000 [⟨1, 0, none, "UTC"⟩]).1 =
      closeEntry [⟨1, 0, none, "UTC"⟩] 1 (0 + MAX_SHIFT_MS) ∧
    (status 60000000 0 1000000000000
        (status 54000000 0 1000000000000 [⟨1, 0, none, "UTC"⟩]).1).1 =
      (status 54000000 0 1000000000000 [⟨1, 0, none, "UTC"⟩]).1 ∧
    (status 60000000 0 1000000000000
        (status 54000000 0 1000000000000 [⟨1, 0, none, "UTC"⟩]).1).2.is_working = false ∧
    (status 60000000 0 1000000000000
        (status 54000000 0 1000000000000 [⟨1, 0, none, "UTC"⟩]).1).2.current_session =
      none :=
  status_autoclose_idempotent 54000000 60000000 0 1000000000000 0 1000000000000
    [⟨1, 0, none, "UTC"⟩] ⟨1, 0, none, "UTC"⟩ (by decide) (by decide) (by decide)

/-- Closing a member entry by id at an end time within `[start, start+15h]`
preserves the closed-duration invariant when ids are distinct (shared
helper). -/
theorem closedDurOK_closeEntry (s : Store) (e : TimeEntry) (endMs : ℤ)
    (hids : IdsNodup s) (hmem : e ∈ s)
    (hlo : e.start_time ≤ endMs) (hhi : endMs ≤ e.start_time + MAX_SHIFT_MS)
    (hok : ClosedDurOK s) :
    ClosedDurOK (closeEntry s e.id endMs) := by
  intro x hx
  obtain ⟨y, hy, rfl⟩ := List.mem_map.mp hx
  by_cases hid : y.id = e.id
  · have hye : y = e := List.inj_on_of_nodup_map hids hy hmem hid
    subst hye
    simp [entryClosedDurOK, hid, hlo, hhi]
  · simp only [hid, if_false]
    exact hok y hy

/-- The capped end time lies within `[start, start + 15h]` whenever the clock
has not gone backwards past the start (shared helper). -/
theorem cappedEnd_bounds (startMs now : ℤ) (h : startMs ≤ now) :
    startMs ≤ cappedEnd startMs now ∧ cappedEnd startMs now ≤ startMs + MAX_SHIFT_MS := by
  have hcap : (0 : ℤ) ≤ MAX_SHIFT_MS := by decide
  unfold cappedEnd
  by_cases hlt : MAX_SHIFT_MS < now - startMs
  · rw [if_pos hlt]
    omega
  · rw [if_neg hlt]
    omega

/-- C1: none of clock-in, clock-out, or the status read (auto-timeout) ever
produces a closed entry whose duration is negative or exceeds 15 hours:
starting from a store whose closed entries all satisfy `0 ≤ end − start ≤ 15h`,
with distinct row ids and all starts in the past, the store after each
operation still satisfies it — entries closed by manual clock-out or by
auto-timeout included. -/
theorem closed_duration_invariant (r : TzResolver) (tz : String) (isAuto : Bool)
    (now ys ye : ℤ) (newId : ℕ) (s : Store)
    (hok : ClosedDurOK s) (hstart : StartsLE now s) (hids : IdsNodup s) :
    ClosedDurOK (clockIn r tz now newId s).1 ∧
    ClosedDurOK (clockOut r isAuto now s).1 ∧
    ClosedDurOK (status now ys ye s).1 := by
  refine ⟨?_, ?_, ?_⟩
  · unfold clockIn
    by_cases h0 : tz = ""
    · simpa [h0] using hok
    · cases hchk : checkWeekendRestriction r tz now with
      | some msg => simpa [h0, hchk] using hok
      | none =>
          by_cases hopen : (findOpenEntry s).isSome
          · simpa [h0, hchk, hopen] using hok
          · simp only [h0, hchk, hopen, if_false, Bool.false_eq_true]
            intro x hx
            rcases List.mem_append.mp hx with hxs | hxe
            · exact hok x hxs
            · rcases List.mem_singleton.mp hxe with rfl
              rfl
  · cases hfind : findOpenEntry s with
    | none => simpa [clockOut, hfind] using hok
    | some e =>
        have hmem : e ∈ s := List.mem_of_find?_eq_some hfind
        have hbounds := cappedEnd_bounds e.start_time now (hstart e hmem)
        have hclose : ClosedDurOK (closeEntry s e.id (cappedEnd e.start_time now)) :=
          closedDurOK_closeEntry s e _ hids hmem hbounds.1 hbounds.2 hok
        by_cases hauto : isAuto = false ∧ e.start_timezone ≠ ""
        · cases hchk : checkWeekendRestriction r e.start_timezone now with
          | some msg => simpa [clockOut, hfind, hauto, hchk] using hok
          | none => simpa [clockOut, hfind, hauto, hchk] using hclose
        · simpa [clockOut, hfind, hauto] using hclose
  · cases hfind : findOpenEntry s with
    | none => simpa [status, hfind] using hok
    | some e =>
        have hmem : e ∈ s := List.mem_of_find?_eq_some hfind
        have hcap : (0 : ℤ) ≤ MAX_SHIFT_MS := by decide
        by_cases helapsed : MAX_SHIFT_MS ≤ now - e.start_time
        · have hclose : ClosedDurOK (closeEntry s e.id (e.start_time + MAX_SHIFT_MS)) :=
            closedDurOK_closeEntry s e _ hids hmem (by omega) (by omega) hok
          have h1 : (status now ys ye s).1 =
              closeEntry s e.id (e.start_time + MAX_SHIFT_MS) := by
            simp only [status, hfind]
            rw [if_pos helapsed]
          rw [h1]
          exact hclose
        · have h1 : (status now ys ye s).1 = s := by
            simp only [status, hfind]
            rw [if_neg helapsed]
          rw [h1]
          exact hok

/-- Witness for C1: a store with one closed one-hour entry and one open
entry, run through clock-in, a manual clock-out, and a status read at a
common later instant; all resulting stores satisfy the invariant. -/
theorem closed_duration_invariant_witness :
    (ClosedDurOK [⟨1, 0, some 3600000, "UTC"⟩, ⟨2, 7200000, none, "UTC"⟩] ∧
     StartsLE 10000000 [⟨1, 0, some 3600000, "UTC"⟩, ⟨2, 7200000, none, "UTC"⟩] ∧
     IdsNodup [⟨1, 0, some 3600000, "UTC"⟩, ⟨2, 7200000, none, "UTC"⟩]) ∧
    (ClosedDurOK (clockIn toyResolver "Asia/Tokyo" 10000000 9
        [⟨1, 0, some 3600000, "UTC"⟩, ⟨2, 7200000, none, "UTC"⟩]).1 ∧
     ClosedDurOK (clockOut toyResolver false 10000000
        [⟨1, 0, some 3600000, "UTC"⟩, ⟨2, 7200000, none, "UTC"⟩]).1 ∧
     ClosedDurOK (status 10000000 0 1000000000000
        [⟨1, 0, some 3600000, "UTC"⟩, ⟨2, 7200000, none, "UTC"⟩]).1) :=
  ⟨⟨by decide, by decide, by decide⟩,
   closed_duration_invariant toyResolver "Asia/Tokyo" false 10000000 0 1000000000000 9
     [⟨1, 0, some 3600000, "UTC"⟩, ⟨2, 7200000, none, "UTC"⟩]
     (by decide) (by decide) (by decide)⟩

/-- C8: the heatmap groups closed in-year entries by the UTC calendar day of
`start_timestamp`: a day maps to nothing exactly when no closed in-year
entry starts on it; when it maps to a value, that value is the group's
summed `(end − start)` hours rounded to 2 decimals (×100); and an entry
spanning midnight (its end falls on the day after its start) is attributed
wholly to its start date — its start day carries its full duration and its
end day is absent. -/
theorem heatmap_groups_by_utc_start_date (ys ye : ℤ) (s : Store) (d : ℤ)
    (e : TimeEntry) (endMs : ℤ) (hclosed : e.end_time = some endMs)
    (hys : ys ≤ e.start_time) (hye : e.start_time < ye)
    (hspan : utcDay endMs = utcDay e.start_time + 1) :
    (heatmapDays ys ye s d = none ↔
      ∀ x ∈ s, ¬(inYearClosed ys ye x = true ∧ utcDay x.start_time = d)) ∧
    (∀ v, heatmapDays ys ye s d = some v →
      v = roundHoursX100 (((s.filter fun x =>
            inYearClosed ys ye x && decide (utcDay x.start_time = d)).map
          entryDurMs).sum)) ∧
    heatmapDays ys ye [e] (utcDay e.start_time) =
      some (roundHoursX100 (endMs - e.start_time)) ∧
    heatmapDays ys ye [e] (utcDay endMs) = none := by
  have hgroup : ∀ x : TimeEntry,
      ((inYearClosed ys ye x && decide (utcDay x.start_time = d)) = true) ↔
      (inYearClosed ys ye x = true ∧ utcDay x.start_time = d) := by
    intro x
    simp
  refine ⟨?_, ?_, ?_, ?_⟩
  · unfold heatmapDays
    by_cases hemp : (s.filter fun x =>
        inYearClosed ys ye x && decide (utcDay x.start_time = d)).isEmpty
    · simp only [hemp, if_true]
      rw [List.isEmpty_iff, List.filter_eq_nil_iff] at hemp
      constructor
      · intro _ x hx
        have := hemp x hx
        rw [hgroup x] at this
        exact this
      · intro _
        trivial
    · simp only [hemp, if_false, Bool.false_eq_true]
      constructor
      · intro hcontra
        exact absurd hcontra (Option.some_ne_none _)
      · intro hall
        exfalso
        apply hemp
        rw [List.isEmpty_iff, List.filter_eq_nil_iff]
        intro x hx
        rw [hgroup x]
        exact hall x hx
  · intro v hv
    unfold heatmapDays at hv
    by_cases hemp : (s.filter fun x =>
        inYearClosed ys ye x && decide (utcDay x.start_time = d)).isEmpty
    · rw [if_pos hemp] at hv
      exact absurd hv (Option.noConfusion)
    · rw [if_neg hemp] at hv
      exact (Option.some_inj.mp hv).symm
  · have hin : inYearClosed ys ye e = true := by
      simp [inYearClosed, hclosed, hys, hye]
    unfold heatmapDays
    simp [hin, entryDurMs, hclosed]
  · have hne : ¬ utcDay e.start_time = utcDay endMs := by
      omega
    unfold heatmapDays
    simp [hne]

/-- Witness for C8: a session from 23:00 UTC to 02:00 UTC the next day
(start epoch ms 82800000, end 93600000) contributes its full 3 hours (300
hundredths) to its start day (day 0) and nothing to its end day (day 1). -/
theorem heatmap_groups_by_utc_start_date_witness :
    heatmapDays 0 1000000000000 [⟨1, 82800000, some 93600000, "UTC"⟩] 0 =
      some 300 ∧
    heatmapDays 0 1000000000000 [⟨1, 82800000, some 93600000, "UTC"⟩] 1 = none := by
  have h := heatmap_groups_by_utc_start_date 0 1000000000000
    [⟨1, 82800000, some 93600000, "UTC"⟩] 0 ⟨1, 82800000, some 93600000, "UTC"⟩
    93600000 rfl (by decide) (by decide) (by decide)
  have h1 := h.2.2.1
  have h2 := h.2.2.2
  refine ⟨?_, ?_⟩
  · have : utcDay (82800000 : ℤ) = 0 := by decide
    rw [this] at h1
    exact h1.trans (by decide)
  · have : utcDay (93600000 : ℤ) = 1 := by decide
    rw [this] at h2
    exact h2

/-- When no stored entry passes the year-total filter, the sum is the empty
sum, 0 (shared helper; the SQL `COALESCE(SUM(...), 0)`). -/
theorem sumMsInRange_eq_zero (ys ye : ℤ) (s : Store)
    (h : ∀ x ∈ s, inYearClosed ys ye x = false) :
    sumMsInRange ys ye s = 0 := by
  unfold sumMsInRange
  have hnil : s.filter (inYearClosed ys ye) = [] := by
    rw [List.filter_eq_nil_iff]
    intro a ha
    simp [h a ha]
  rw [hnil]
  rfl

/-- The year total reported by a status read is the rounded sum over the
store as it stands after the read's auto-timeout step (shared helper). -/
theorem status_year_total_eq (now ys ye : ℤ) (s : Store) :
    (status now ys ye s).2.year_total_hours_x100 =
      roundHoursX100 (sumMsInRange ys ye (status now ys ye s).1) := rfl

/-- C10 counterexample: a user whose only entry is open (so no closed entry
starts in the year) does not get `year_total_hours = 0` from a status read
once the open entry has reached 15 hours — the read auto-closes it into the
year bucket and reports 15.00 hours (1500 hundredths, not 0). -/
theorem yearTotal_zero_counterexample :
    (∀ x ∈ ([⟨1, 0, none, "UTC"⟩] : Store), inYearClosed 0 31536000000 x = false) ∧
    (status 54000000 0 31536000000
        [⟨1, 0, none, "UTC"⟩]).2.year_total_hours_x100 = 1500 := by
  constructor
  · decide
  · decide

/-- C10 amended: for every user with no closed entries starting in the
current UTC year and no open entry that the read's auto-timeout would close
with a start in that year, the status read returns `year_total_hours = 0`
(a number, never null): the sum over the empty set is coalesced to zero.
(`IdsNodup` reflects the primary key on `id`.) -/
theorem yearTotal_zero_amended (now ys ye : ℤ) (s : Store)
    (hids : IdsNodup s)
    (hclosed : ∀ x ∈ s, inYearClosed ys ye x = false)
    (hauto : ∀ x ∈ s, x.end_time = none → MAX_SHIFT_MS ≤ now - x.start_time →
      ¬(ys ≤ x.start_time ∧ x.start_time < ye)) :
    (status now ys ye s).2.year_total_hours_x100 = 0 := by
  rw [status_year_total_eq]
  have hall : ∀ x ∈ (status now ys ye s).1, inYearClosed ys ye x = false := by
    cases hfind : findOpenEntry s with
    | none =>
        have h1 : (status now ys ye s).1 = s := by
          rw [status_of_no_open now ys ye s hfind]
        rw [h1]
        exact hclosed
    | some e =>
        have hmem : e ∈ s := List.mem_of_find?_eq_some hfind
        have hopen : e.end_time = none := by
          have := List.find?_some hfind
          rwa [TimeEntry.isOpen, Option.isNone_iff_eq_none] at this
        by_cases helapsed : MAX_SHIFT_MS ≤ now - e.start_time
        · have h1 : (status now ys ye s).1 =
              closeEntry s e.id (e.start_time + MAX_SHIFT_MS) := by
            simp only [status, hfind]
            rw [if_pos helapsed]
          rw [h1]
          intro x hx
          obtain ⟨y, hy, rfl⟩ := List.mem_map.mp hx
          by_cases hid : y.id = e.id
          · have hye2 : y = e := List.inj_on_of_nodup_map hids hy hmem hid
            subst hye2
            have hnotyear := hauto y hy hopen helapsed
            simp only [hid, if_pos, inYearClosed]
            rw [Bool.eq_false_iff]
            intro htrue
            simp only [Bool.and_eq_true, decide_eq_true_eq] at htrue
            exact hnotyear ⟨htrue.1.2, htrue.2⟩
          · simp only [hid, if_false]
            exact hclosed y hy
        · have h1 : (status now ys ye s).1 = s := by
            simp only [status, hfind]
            rw [if_neg helapsed]
          rw [h1]
          exact hclosed
  rw [sumMsInRange_eq_zero ys ye _ hall]
  rfl

/-- Witness for the amended C10: a user with no entries at all, and a user
whose only closed entry started last year plus an open entry begun minutes
ago, both read a year total of exactly 0. -/
theorem yearTotal_zero_amended_witness :
    (status 100 0 31536000000 ([] : Store)).2.year_total_hours_x100 = 0 ∧
    (status 31537200000 31536000000 63072000000
        [⟨1, 100, some 3600100, "UTC"⟩,
         ⟨2, 31537100000, none, "UTC"⟩]).2.year_total_hours_x100 = 0 :=
  ⟨yearTotal_zero_amended 100 0 31536000000 [] (by decide) (by decide) (by decide),
   yearTotal_zero_amended 31537200000 31536000000 63072000000
     [⟨1, 100, some 3600100, "UTC"⟩, ⟨2, 31537100000, none, "UTC"⟩]
     (by decide) (by decide) (by decide)⟩

end Whistle
